import Mathlib

/-!
Shallow embedding of the attestation-pipeline service (`src/app.js` and the
`/process-image` router) in Lean 4, together with proofs checking the
natural-language specification against the code.

JavaScript string primitives used by the source (`String.prototype.split`,
`trim`, `startsWith`, first-occurrence `replace` of a guarding label, and the
falsy `||` operator) are embedded as executable functions on `List Char`,
mirroring the ECMAScript semantics the source relies on.  External
collaborators (Pinata, OpenAI, the ethers provider and the EAS contract) are
modelled as oracles supplied to the handler: the handler's control flow,
response statuses, response bodies and the temporary-file release count are
translated from the source line by line.
-/

namespace S2P

/-! ## JavaScript string primitives -/

/-- Whitespace characters removed by `String.prototype.trim` (the ASCII ones
plus NBSP, BOM and the Unicode line separators, which is the set relevant to
this program's inputs). -/
def isJsWhitespace (c : Char) : Bool :=
  c = ' ' || c = '\t' || c = '\n' || c = '\r' ||
  c = '\x0b' || c = '\x0c' || c = '\u00A0' || c = '\uFEFF' ||
  c = '\u2028' || c = '\u2029'

/-- Remove leading and trailing JS whitespace from a character list. -/
def trimChars (cs : List Char) : List Char :=
  ((cs.dropWhile isJsWhitespace).reverse.dropWhile isJsWhitespace).reverse

/-- `String.prototype.trim`. -/
def jsTrim (s : String) : String := ⟨trimChars s.data⟩

/-- Split a character list at every occurrence of the separator character,
keeping empty segments, as `String.prototype.split` does. -/
def splitChars (sep : Char) : List Char → List Char → List (List Char)
  | [], acc => [acc.reverse]
  | c :: cs, acc =>
    if c = sep then acc.reverse :: splitChars sep cs []
    else splitChars sep cs (c :: acc)

/-- `responseText.split("\n")` from `parseAIResponse`. -/
def jsSplitNewline (s : String) : List String :=
  (splitChars '\n' s.data []).map (fun cs => ⟨cs⟩)

/-- `String.prototype.startsWith`. -/
def jsStartsWith (s pre : String) : Bool :=
  pre.data.isPrefixOf s.data

/-- The JavaScript expression `line.replace(label, "").trim()` as it occurs in
`parseAIResponse`: the guard `line.startsWith(label)` holds at every call
site, so removing the first occurrence of `label` is dropping the prefix of
`label.length` characters; the remainder is then trimmed. -/
def stripLabel (label line : String) : String :=
  jsTrim ⟨line.data.drop label.data.length⟩

/-- The JavaScript defaulting idiom `x || dflt` on an optional string field:
a missing (`undefined`) value and the empty string are both falsy and select
the default. -/
def jsOr (x : Option String) (dflt : String) : String :=
  match x with
  | none => dflt
  | some s => if s = "" then dflt else s

/-! ## Data model: the parsed event record (`parseAIResponse`) -/

/-- The record returned by `parseAIResponse` in `src/app.js` (the spec's
`EventRecord`). -/
structure EventRecord where
  event_name : String
  event_description : String
  occasion : String
  location_coordinates : List String
  memory_description : String
deriving DecidableEq, Repr

/-- The `defaultValues` object of `parseAIResponse` (`src/app.js` lines
67 to 73). -/
def defaultValues : EventRecord :=
  { event_name := "EthIndia2024"
    event_description := "Exclusive EthIndia 2024 by devfolio"
    occasion := "Hackathon"
    location_coordinates := ["12", "72"]
    memory_description := "Hacker day for the awesome devs" }

/-- The mutable `data` object filled by the `forEach` loop of
`parseAIResponse`: a field is `none` until some line set it. -/
structure ParseData where
  event_name : Option String := none
  event_description : Option String := none
  occasion : Option String := none
deriving DecidableEq, Repr

/-- One iteration of the `lines.forEach` loop of `parseAIResponse`
(`src/app.js` lines 81 to 89): the if/else-if chain over the three
recognized label strings. -/
def processLine (acc : ParseData) (line : String) : ParseData :=
  if jsStartsWith line "Event Name:" then
    { acc with event_name := some (stripLabel "Event Name:" line) }
  else if jsStartsWith line "Event Description:" then
    { acc with event_description := some (stripLabel "Event Description:" line) }
  else if jsStartsWith line "Occasion:" then
    { acc with occasion := some (stripLabel "Occasion:" line) }
  else acc

/-- The trimmed line list `responseText.split("\n").map(line => line.trim())`
of `parseAIResponse`. -/
def parsedLines (responseText : String) : List String :=
  (jsSplitNewline responseText).map jsTrim

/-- `parseAIResponse` from `src/app.js` lines 66 to 103.  The function body
never throws (splitting, trimming and prefix tests are total), so the
`catch` branch returning `defaultValues` is unreachable and the embedding is
the `try` path. -/
def parseAIResponse (responseText : String) : EventRecord :=
  let data := (parsedLines responseText).foldl processLine {}
  { event_name := jsOr data.event_name defaultValues.event_name
    event_description := jsOr data.event_description defaultValues.event_description
    occasion := jsOr data.occasion defaultValues.occasion
    location_coordinates := defaultValues.location_coordinates
    memory_description := "Generated from OpenAI analysis of the image." }

/-! ## Schema encoding (the spec's Schema Encoder component)

The source delegates encoding to the external `SchemaEncoder` of the EAS SDK,
which is not part of this repository.  The definitions below are therefore
modelled from the spec. -/

/-- The schema string passed to `new SchemaEncoder(...)` in `src/app.js`
lines 158 to 160 (including the source's `occassion` spelling). -/
def registeredSchema : String :=
  "string event_name,string event_description,string occassion,string[] location_coordinates,string memory_description"

/-- The schema UID constant of `src/app.js` lines 34 to 35. -/
def schemaUID : String :=
  "0x0ab02d640f0bb27a4b16a89bb51e53fbe1693647bcb02048650d32a7d6cc8d40"

/-- Modelled from the spec: serialization of one string field of the
`SchemaEncoder` payload, "a fixed binary layout": a length word followed by
the code points of the string. -/
def encodeStr (s : String) : List Nat :=
  s.data.length :: s.data.map Char.toNat

/-- Modelled from the spec: serialization of the `string[]` field — an
element-count word followed by the serialized elements in order. -/
def encodeStrList (xs : List String) : List Nat :=
  xs.length :: xs.foldr (fun s acc => encodeStr s ++ acc) []

/-- Modelled from the spec: the fixed layout of an `EncodedPayload` — the
five declared fields in schema order (string, string, string, string-array,
string). -/
def encodeRecord (r : EventRecord) : List Nat :=
  encodeStr r.event_name ++ encodeStr r.event_description ++
  encodeStr r.occasion ++ encodeStrList r.location_coordinates ++
  encodeStr r.memory_description

/-- Modelled from the spec: `encode(EventRecord, schemaId) -> EncodedPayload`,
the `schemaEncoder.encodeData` call of `src/app.js` lines 162 to 180, which
"fails with SchemaMismatch if the record's field set does not match the
published schema layout exactly" and is otherwise a pure function of the
record. -/
def encodeData (schema : String) (r : EventRecord) : Option (List Nat) :=
  if schema = registeredSchema then some (encodeRecord r) else none

/-- Read back one length-prefixed string from a payload, returning the string
and the remaining words. -/
def decodeStr : List Nat → Option (String × List Nat)
  | [] => none
  | n :: rest =>
    if rest.length < n then none
    else some (⟨(rest.take n).map Char.ofNat⟩, rest.drop n)

/-- Read back a counted sequence of strings from a payload. -/
def decodeStrs : Nat → List Nat → Option (List String × List Nat)
  | 0, rest => some ([], rest)
  | n + 1, rest =>
    match decodeStr rest with
    | none => none
    | some (s, rest₁) =>
      match decodeStrs n rest₁ with
      | none => none
      | some (xs, rest₂) => some (s :: xs, rest₂)

/-- Read back the `string[]` field: its count word, then that many strings. -/
def decodeStrList : List Nat → Option (List String × List Nat)
  | [] => none
  | n :: rest => decodeStrs n rest

/-- Decoding an `EncodedPayload` against the published schema: the five
fields in schema order; the whole payload must be consumed. -/
def decodeRecord (payload : List Nat) : Option EventRecord :=
  match decodeStr payload with
  | none => none
  | some (a, r₁) =>
    match decodeStr r₁ with
    | none => none
    | some (b, r₂) =>
      match decodeStr r₂ with
      | none => none
      | some (c, r₃) =>
        match decodeStrList r₃ with
        | none => none
        | some (d, r₄) =>
          match decodeStr r₄ with
          | some (e, []) =>
            some { event_name := a, event_description := b, occasion := c,
                   location_coordinates := d, memory_description := e }
          | _ => none

/-! ## The `/upload-image` handler (`src/app.js` lines 106 to 208) -/

/-- The multer `file` object fields the handler reads. -/
structure FileInfo where
  path : String
  originalname : String
deriving DecidableEq, Repr

/-- The argument object of the `eas.attest` call (`src/app.js` lines
182 to 190): the schema UID and the `data` block with its hard-coded
`expirationTime: 0` and `revocable: true`. -/
structure AttestRequest where
  schema : String
  recipient : String
  expirationTime : Nat
  revocable : Bool
  data : List Nat
deriving DecidableEq, Repr

/-- Construction of the `eas.attest` argument exactly as written in
`src/app.js` lines 182 to 190. -/
def mkAttestRequest (recipient : String) (encodedData : List Nat) : AttestRequest :=
  { schema := schemaUID
    recipient := recipient
    expirationTime := 0
    revocable := true
    data := encodedData }

/-- The JSON bodies the `/upload-image` handler can send, keyed by the
object literals in the source: the 400 no-file body carries `message` (not
`error`), the catch-all 500 body carries `error`, and the 200 body carries
`message`, `ipfsUrl`, `schemaValues` and `attestationUID`. -/
inductive ResponseBody where
  | noFileBody
  | errorBody (error : String)
  | successBody (message : String) (ipfsUrl : String)
      (schemaValues : EventRecord) (attestationUID : String)
deriving DecidableEq, Repr

/-- An HTTP response: status code and JSON body. -/
structure HttpResponse where
  status : Nat
  body : ResponseBody
deriving DecidableEq, Repr

/-- Outcomes of the external calls the handler awaits, as oracles: each is
either `.error message` (the awaited call threw, carrying `err.message`) or
the value the source destructures from it.  `parseCoords` models
`JSON.parse(location_coordinates)`, `pinFile` the Pinata upload given path
and original name, `describe` the OpenAI completion content
(`completion.choices[0]?.message?.content`, absent content being `none`),
`attest` the `eas.attest` call and `waitTx` the `tx.wait()` confirmation. -/
structure Env where
  parseCoords : String → Except String (List String)
  pinFile : String → String → Except String String
  describe : String → Except String (Option String)
  attest : AttestRequest → Except String Unit
  waitTx : Except String String

/-- `schemaValues` after `src/app.js` lines 149 and 150: the parsed record
with its `location_coordinates` overwritten by the caller's parsed
coordinates. -/
def buildSchemaValues (responseText : String) (parsedCoordinates : List String) : EventRecord :=
  { parseAIResponse responseText with location_coordinates := parsedCoordinates }

/-- The fixed fallback text used when the completion has no content
(`src/app.js` lines 144 to 146). -/
def noDescriptionFallback : String :=
  "\x7b\"error\": \"No description generated.\"\x7d"

/-- The success message literal of the 200 response. -/
def successMessage : String :=
  "Image uploaded, pinned, described, and attested successfully."

/-- The `/upload-image` handler (`src/app.js` lines 106 to 208) as a function
from the request parts and the oracle outcomes to the HTTP response paired
with the number of times `fs.unlinkSync(file.path)` ran.  The early no-file
return sends 400; every throw inside the `try` block lands in the single
`catch`, which sends 500 with `err.message`; `fs.unlinkSync` is executed only
on the straight-line path just before the 200 response. -/
def uploadImageHandler (file : Option FileInfo)
    (location_coordinates recipient : String) (env : Env) :
    HttpResponse × Nat :=
  match file with
  | none => ({ status := 400, body := .noFileBody }, 0)
  | some f =>
    match env.parseCoords location_coordinates with
    | .error e => ({ status := 500, body := .errorBody e }, 0)
    | .ok parsedCoordinates =>
      match env.pinFile f.path f.originalname with
      | .error e => ({ status := 500, body := .errorBody e }, 0)
      | .ok ipfsUrl =>
        match env.describe ipfsUrl with
        | .error e => ({ status := 500, body := .errorBody e }, 0)
        | .ok content =>
          let responseText := jsOr content noDescriptionFallback
          let schemaValues := buildSchemaValues responseText parsedCoordinates
          let encodedData := encodeRecord schemaValues
          match env.attest (mkAttestRequest recipient encodedData) with
          | .error e => ({ status := 500, body := .errorBody e }, 0)
          | .ok _ =>
            match env.waitTx with
            | .error e => ({ status := 500, body := .errorBody e }, 0)
            | .ok newAttestationUID =>
              ({ status := 200,
                 body := .successBody successMessage ipfsUrl schemaValues newAttestationUID }, 1)

/-! ## The `/process-image` handler (router file, lines 14 to 65) -/

/-- The JSON bodies of the `/process-image` route. -/
inductive ProcBody where
  | noImage
  | procSuccess (event_name event_description description : String)
  | procFailure (error details : String)
deriving DecidableEq, Repr

/-- The `/process-image` handler of the router file as a function from the
file presence and the oracle outcomes (`fs.readFileSync`, then the axios
call returning `response.data.choices[0]?.text`) to status, body and the
number of times the `finally` block ran `fs.unlinkSync(req.file.path)`. -/
def processImageHandler (file : Option FileInfo)
    (readFileResult : Except String String)
    (apiResult : Except String (Option String)) :
    (Nat × ProcBody) × Nat :=
  match file with
  | none => ((400, .noImage), 0)
  | some _ =>
    match readFileResult with
    | .error e => ((500, .procFailure "Failed to process image" e), 1)
    | .ok _base64Image =>
      match apiResult with
      | .error e => ((500, .procFailure "Failed to process image" e), 1)
      | .ok text =>
        let description := jsOr text "No description generated."
        ((200, .procSuccess "AI-generated Event" (jsTrim description) (jsTrim description)), 1)

/-! ## Label abstraction over the three recognized line prefixes -/

/-- The three recognized labels of `parseAIResponse`. -/
inductive Label where
  | name
  | descr
  | occ
deriving DecidableEq, Repr

/-- The label string a `Label` stands for. -/
def labelText : Label → String
  | .name => "Event Name:"
  | .descr => "Event Description:"
  | .occ => "Occasion:"

/-- The `EventRecord` field a label populates. -/
def recordField : Label → EventRecord → String
  | .name, r => r.event_name
  | .descr, r => r.event_description
  | .occ, r => r.occasion

/-- The `ParseData` field a label populates. -/
def dataField : Label → ParseData → Option String
  | .name, d => d.event_name
  | .descr, d => d.event_description
  | .occ, d => d.occasion

/-! ## Concrete request fixtures used by counterexamples and witnesses -/

/-- A concrete multer file object. -/
def file0 : FileInfo := { path := "uploads/3f2a9c", originalname := "img.png" }

/-- A concrete raw `location_coordinates` body field. -/
def coordsRaw : String := "[\"12\",\"72\"]"

/-- A concrete recipient account string. -/
def recipient0 : String := "0x1e3bA5ab72aB163f0C32B0B5B82a2a593B14f618"

/-- Oracles for a request on which every external call succeeds. -/
def envAllOk : Env :=
  { parseCoords := fun _ => .ok ["12", "72"]
    pinFile := fun _ _ =>
      .ok "https://violet-gentle-cow-510.mypinata.cloud/ipfs/QmDeMoHash"
    describe := fun _ =>
      .ok (some "Event Name: Demo\nEvent Description: Test\nOccasion: Meetup")
    attest := fun _ => .ok ()
    waitTx := .ok "0x5fe1a3" }

/-- Oracles for a request whose Pinata upload throws (a storage-stage
failure). -/
def envPinFail : Env :=
  { envAllOk with pinFile := fun _ _ => .error "Storage unavailable" }

/-- Oracles for a request whose `JSON.parse(location_coordinates)` throws. -/
def envBadJson : Env :=
  { envAllOk with
      parseCoords := fun _ => .error "Unexpected token u in JSON at position 0" }

/-- Oracles for a request whose `tx.wait()` confirmation times out after the
broadcast succeeded. -/
def envWaitTimeout : Env :=
  { envAllOk with waitTx := .error "confirmation timed out" }

/-- Oracles for a request whose `eas.attest` broadcast is rejected outright,
with the same message text as the timeout fixture. -/
def envAttestReject : Env :=
  { envAllOk with attest := fun _ => .error "confirmation timed out" }

/-! ## Helper lemmas -/

/-- The JS `||` defaulting never yields the empty string when the default is
non-empty. -/
theorem jsOr_ne_empty (x : Option String) (dflt : String) (h : dflt ≠ "") :
    jsOr x dflt ≠ "" := by
  match x with
  | none => exact h
  | some s =>
    by_cases hs : s = ""
    · show (if s = "" then dflt else s) ≠ ""
      rw [if_pos hs]; exact h
    · show (if s = "" then dflt else s) ≠ ""
      rw [if_neg hs]; exact hs

/-- Two lists neither of which is a prefix of the other cannot both be
prefixes of a third. -/
theorem isPrefixOf_antisymm_aux {p q l : List Char}
    (hpq : p.isPrefixOf q = false) (hqp : q.isPrefixOf p = false)
    (hp : p.isPrefixOf l = true) : q.isPrefixOf l = false := by
  by_contra hc
  rw [Bool.not_eq_false] at hc
  have h1 : p <+: l := List.isPrefixOf_iff_prefix.mp hp
  have h2 : q <+: l := List.isPrefixOf_iff_prefix.mp hc
  rcases List.prefix_or_prefix_of_prefix h1 h2 with hx | hx
  · rw [List.isPrefixOf_iff_prefix.mpr hx] at hpq; exact Bool.noConfusion hpq
  · rw [List.isPrefixOf_iff_prefix.mpr hx] at hqp; exact Bool.noConfusion hqp

/-- No line can start with two distinct recognized labels. -/
theorem label_disjoint (lab lab' : Label) (hne : lab ≠ lab') (l : String)
    (h : jsStartsWith l (labelText lab) = true) :
    jsStartsWith l (labelText lab') = false := by
  cases lab <;> cases lab' <;> first
    | exact absurd rfl hne
    | exact isPrefixOf_antisymm_aux (by decide) (by decide) h

/-- A line starting with a label sets that label's `data` field to the
stripped, trimmed value. -/
theorem dataField_processLine_of_match (lab : Label) (acc : ParseData) (l : String)
    (h : jsStartsWith l (labelText lab) = true) :
    dataField lab (processLine acc l) = some (stripLabel (labelText lab) l) := by
  cases lab
  · simp only [labelText] at h ⊢
    simp [processLine, dataField, h]
  · have h1 := label_disjoint .descr .name (by decide) l h
    simp only [labelText] at h h1 ⊢
    simp [processLine, dataField, h, h1]
  · have h1 := label_disjoint .occ .name (by decide) l h
    have h2 := label_disjoint .occ .descr (by decide) l h
    simp only [labelText] at h h1 h2 ⊢
    simp [processLine, dataField, h, h1, h2]

/-- A line not starting with a label leaves that label's `data` field
untouched. -/
theorem dataField_processLine_of_not (lab : Label) (acc : ParseData) (l : String)
    (h : jsStartsWith l (labelText lab) = false) :
    dataField lab (processLine acc l) = dataField lab acc := by
  cases lab <;> simp only [labelText] at h <;>
    unfold processLine <;> (repeat' split) <;> simp_all [dataField]

/-- The `forEach` loop leaves a label's `data` field untouched over any run
of lines none of which starts with that label. -/
theorem dataField_foldl_of_no_match (lab : Label) (ls : List String) (acc : ParseData)
    (h : ∀ l ∈ ls, jsStartsWith l (labelText lab) = false) :
    dataField lab (ls.foldl processLine acc) = dataField lab acc := by
  induction ls generalizing acc with
  | nil => rfl
  | cons l ls ih =>
    rw [List.foldl_cons, ih _ (fun x hx => h x (List.mem_cons_of_mem _ hx)),
      dataField_processLine_of_not _ _ _ (h l (List.mem_cons_self _ _))]

/-- Each labeled output field of `parseAIResponse` is the JS-defaulted value
of the corresponding `data` field after the loop. -/
theorem recordField_parseAIResponse (lab : Label) (t : String) :
    recordField lab (parseAIResponse t)
      = jsOr (dataField lab ((parsedLines t).foldl processLine {}))
          (recordField lab defaultValues) := by
  cases lab <;> rfl

/-- Decoding a character list reconstructed from its code points is the
identity. -/
theorem map_ofNat_toNat (cs : List Char) :
    cs.map (fun c => Char.ofNat c.toNat) = cs := by
  induction cs with
  | nil => rfl
  | cons c cs ih => simp [ih, Char.ofNat_toNat]

/-- Reading one serialized string off the front of a payload recovers it and
leaves the remainder. -/
theorem decodeStr_encodeStr (s : String) (t : List Nat) :
    decodeStr (encodeStr s ++ t) = some (s, t) := by
  cases s with
  | mk data =>
    simp only [encodeStr, List.cons_append, decodeStr]
    rw [if_neg]
    · rw [List.take_left' (by simp), List.drop_left' (by simp)]
      simp [List.map_map, Function.comp_def, map_ofNat_toNat]
    · simp

/-- Appending after the element fold of `encodeStrList` is folding with the
appended tail as initial value. -/
theorem foldr_encode_append (xs : List String) (t : List Nat) :
    (xs.foldr (fun s acc => encodeStr s ++ acc) []) ++ t
      = xs.foldr (fun s acc => encodeStr s ++ acc) t := by
  induction xs with
  | nil => rfl
  | cons x xs ih => simp [List.foldr_cons, List.append_assoc, ih]

/-- Reading back a counted sequence of serialized strings recovers them. -/
theorem decodeStrs_foldr (xs : List String) (t : List Nat) :
    decodeStrs xs.length (xs.foldr (fun s acc => encodeStr s ++ acc) t)
      = some (xs, t) := by
  induction xs with
  | nil => rfl
  | cons x xs ih =>
    simp only [List.foldr_cons, List.length_cons, decodeStrs,
      decodeStr_encodeStr, ih]

/-- Reading the serialized string-array field recovers it and leaves the
remainder. -/
theorem decodeStrList_encodeStrList (xs : List String) (t : List Nat) :
    decodeStrList (encodeStrList xs ++ t) = some (xs, t) := by
  simp only [encodeStrList, List.cons_append, decodeStrList,
    foldr_encode_append, decodeStrs_foldr]

/-- Decoding an encoded record recovers every field. -/
theorem decodeRecord_encodeRecord (r : EventRecord) :
    decodeRecord (encodeRecord r) = some r := by
  have h5 : decodeStr (encodeStr r.memory_description) =
      some (r.memory_description, []) := by
    have := decodeStr_encodeStr r.memory_description []
    simpa using this
  simp only [encodeRecord, List.append_assoc, decodeRecord, decodeStr_encodeStr,
    decodeStrList_encodeStrList, h5]

/-! ## Claim theorems -/

/-- C1: the spec claims the temporary uploaded file is released exactly once
per request on every exit of the pipeline.  The code violates this in the
`/upload-image` handler: on a storage-stage failure the handler answers 500
and runs `fs.unlinkSync` zero times (the unlink sits on the success path
only), while on success it runs exactly once; the sibling `/process-image`
handler releases the file exactly once on every exit via its `finally`
block, evidencing the claimed policy as the intent. -/
theorem uploadImage_release_skipped_on_failure :
    uploadImageHandler (some file0) coordsRaw recipient0 envPinFail
      = ({ status := 500, body := .errorBody "Storage unavailable" }, 0) ∧
    (uploadImageHandler (some file0) coordsRaw recipient0 envAllOk).2 = 1 ∧
    (∀ (rd : Except String String) (ar : Except String (Option String)),
        (processImageHandler (some file0) rd ar).2 = 1) := by
  refine ⟨rfl, rfl, ?_⟩
  intro rd ar
  cases rd with
  | error e => rfl
  | ok b =>
    cases ar with
    | error e => rfl
    | ok txt => rfl

/-- C2: `parseAIResponse` is total and fully defaulting — for every input
text each field of the returned record is non-empty, every labeled field not
populated by a matching line equals its `defaultValues` entry, and the
location and memory fields always carry their fixed values. -/
theorem parseAIResponse_total_defaulting (t : String) :
    ((parseAIResponse t).event_name ≠ "" ∧
     (parseAIResponse t).event_description ≠ "" ∧
     (parseAIResponse t).occasion ≠ "" ∧
     (parseAIResponse t).location_coordinates ≠ [] ∧
     (parseAIResponse t).memory_description ≠ "") ∧
    (∀ lab : Label,
      (∀ l ∈ parsedLines t, jsStartsWith l (labelText lab) = false) →
      recordField lab (parseAIResponse t) = recordField lab defaultValues) ∧
    (parseAIResponse t).location_coordinates = defaultValues.location_coordinates ∧
    (parseAIResponse t).memory_description
      = "Generated from OpenAI analysis of the image." := by
  refine ⟨⟨?_, ?_, ?_, ?_, ?_⟩, ?_, rfl, rfl⟩
  · exact jsOr_ne_empty _ _ (by decide)
  · exact jsOr_ne_empty _ _ (by decide)
  · exact jsOr_ne_empty _ _ (by decide)
  · show (["12", "72"] : List String) ≠ []
    decide
  · show "Generated from OpenAI analysis of the image." ≠ ""
    decide
  · intro lab h
    rw [recordField_parseAIResponse, dataField_foldl_of_no_match lab _ _ h]
    cases lab <;> rfl

/-- C2 witness: the empty extraction text has no matching line, so the event
name is the default. -/
theorem parseAIResponse_total_defaulting_witness :
    recordField Label.name (parseAIResponse "") = recordField Label.name defaultValues :=
  (parseAIResponse_total_defaulting "").2.1 Label.name (by decide)

/-- C3 counterexample: there is no distinct AmbiguousSubmission outcome — a
request whose `tx.wait()` confirmation times out gets the generic catch-all
500 error body, and that response is identical to the one produced by an
outright `eas.attest` rejection carrying the same message. -/
theorem confirmationTimeout_response_generic_cex :
    uploadImageHandler (some file0) coordsRaw recipient0 envWaitTimeout
      = ({ status := 500, body := .errorBody "confirmation timed out" }, 0) ∧
    uploadImageHandler (some file0) coordsRaw recipient0 envWaitTimeout
      = uploadImageHandler (some file0) coordsRaw recipient0 envAttestReject :=
  ⟨rfl, rfl⟩

/-- C3 amended: a broadcast whose confirmation fails is reported through the
generic catch path — status 500 with body `{success:false, error:message}` —
and the response equals the one for an outright rejection with the same
message; the pipeline has no distinct AmbiguousSubmission outcome. -/
theorem confirmationTimeout_returns_generic_500 (f : FileInfo) (lc rec : String)
    (env env' : Env) (c : List String) (url : String) (content : Option String)
    (msg : String)
    (hc : env.parseCoords lc = .ok c)
    (hp : env.pinFile f.path f.originalname = .ok url)
    (hd : env.describe url = .ok content)
    (ha : env.attest (mkAttestRequest rec
            (encodeRecord (buildSchemaValues (jsOr content noDescriptionFallback) c)))
          = .ok ())
    (hw : env.waitTx = .error msg)
    (hc' : env'.parseCoords lc = .ok c)
    (hp' : env'.pinFile f.path f.originalname = .ok url)
    (hd' : env'.describe url = .ok content)
    (ha' : env'.attest (mkAttestRequest rec
            (encodeRecord (buildSchemaValues (jsOr content noDescriptionFallback) c)))
          = .error msg) :
    uploadImageHandler (some f) lc rec env
      = ({ status := 500, body := .errorBody msg }, 0) ∧
    uploadImageHandler (some f) lc rec env
      = uploadImageHandler (some f) lc rec env' := by
  constructor
  · simp only [uploadImageHandler, hc, hp, hd, ha, hw]
  · simp only [uploadImageHandler, hc, hp, hd, ha, hw, hc', hp', hd', ha']

/-- C3 witness: the amended statement at the concrete timeout and rejection
fixtures. -/
theorem confirmationTimeout_returns_generic_500_witness :
    uploadImageHandler (some file0) coordsRaw recipient0 envWaitTimeout
      = ({ status := 500, body := .errorBody "confirmation timed out" }, 0) ∧
    uploadImageHandler (some file0) coordsRaw recipient0 envWaitTimeout
      = uploadImageHandler (some file0) coordsRaw recipient0 envAttestReject :=
  confirmationTimeout_returns_generic_500 file0 coordsRaw recipient0
    envWaitTimeout envAttestReject ["12", "72"]
    "https://violet-gentle-cow-510.mypinata.cloud/ipfs/QmDeMoHash"
    (some "Event Name: Demo\nEvent Description: Test\nOccasion: Meetup")
    "confirmation timed out" rfl rfl rfl rfl rfl rfl rfl rfl rfl

/-- C4 counterexample: unparseable coordinate JSON is thrown inside the
`try` block, so the handler answers 500 — not the claimed 400 — and the
missing-file 400 body carries `message` rather than the claimed `error`
field. -/
theorem badJson_status_cex :
    uploadImageHandler (some file0) "not-json" recipient0 envBadJson
      = ({ status := 500,
           body := .errorBody "Unexpected token u in JSON at position 0" }, 0) ∧
    (500 : Nat) ≠ 400 ∧
    uploadImageHandler none coordsRaw recipient0 envAllOk
      = ({ status := 400, body := .noFileBody }, 0) ∧
    ResponseBody.noFileBody ≠ ResponseBody.errorBody "No file uploaded." :=
  ⟨rfl, by decide, rfl, by decide⟩

/-- C4 amended: a missing file gets status 400 with the `{success:false,
message}` body; every failure thrown inside the `try` block — including
unparseable coordinate JSON — gets status 500 with `{success:false, error}`;
on success the handler answers 200 with the storage URL, the event record
and the attestation identifier. -/
theorem uploadImage_response_policy (f : FileInfo) (lc rec : String) (env : Env) :
    (uploadImageHandler none lc rec env
        = ({ status := 400, body := .noFileBody }, 0)) ∧
    (∀ e, env.parseCoords lc = .error e →
        uploadImageHandler (some f) lc rec env
          = ({ status := 500, body := .errorBody e }, 0)) ∧
    (∀ c e, env.parseCoords lc = .ok c →
        env.pinFile f.path f.originalname = .error e →
        uploadImageHandler (some f) lc rec env
          = ({ status := 500, body := .errorBody e }, 0)) ∧
    (∀ c url e, env.parseCoords lc = .ok c →
        env.pinFile f.path f.originalname = .ok url →
        env.describe url = .error e →
        uploadImageHandler (some f) lc rec env
          = ({ status := 500, body := .errorBody e }, 0)) ∧
    (∀ c url content e, env.parseCoords lc = .ok c →
        env.pinFile f.path f.originalname = .ok url →
        env.describe url = .ok content →
        env.attest (mkAttestRequest rec
            (encodeRecord (buildSchemaValues (jsOr content noDescriptionFallback) c)))
          = .error e →
        uploadImageHandler (some f) lc rec env
          = ({ status := 500, body := .errorBody e }, 0)) ∧
    (∀ c url content e, env.parseCoords lc = .ok c →
        env.pinFile f.path f.originalname = .ok url →
        env.describe url = .ok content →
        env.attest (mkAttestRequest rec
            (encodeRecord (buildSchemaValues (jsOr content noDescriptionFallback) c)))
          = .ok () →
        env.waitTx = .error e →
        uploadImageHandler (some f) lc rec env
          = ({ status := 500, body := .errorBody e }, 0)) ∧
    (∀ c url content uid, env.parseCoords lc = .ok c →
        env.pinFile f.path f.originalname = .ok url →
        env.describe url = .ok content →
        env.attest (mkAttestRequest rec
            (encodeRecord (buildSchemaValues (jsOr content noDescriptionFallback) c)))
          = .ok () →
        env.waitTx = .ok uid →
        uploadImageHandler (some f) lc rec env
          = ({ status := 200,
               body := .successBody successMessage url
                 (buildSchemaValues (jsOr content noDescriptionFallback) c) uid }, 1)) := by
  refine ⟨rfl, ?_, ?_, ?_, ?_, ?_, ?_⟩
  · intro e h1
    simp only [uploadImageHandler, h1]
  · intro c e h1 h2
    simp only [uploadImageHandler, h1, h2]
  · intro c url e h1 h2 h3
    simp only [uploadImageHandler, h1, h2, h3]
  · intro c url content e h1 h2 h3 h4
    simp only [uploadImageHandler, h1, h2, h3, h4]
  · intro c url content e h1 h2 h3 h4 h5
    simp only [uploadImageHandler, h1, h2, h3, h4, h5]
  · intro c url content uid h1 h2 h3 h4 h5
    simp only [uploadImageHandler, h1, h2, h3, h4, h5]

/-- C4 witness: the success conjunct at the all-success fixture. -/
theorem uploadImage_response_policy_witness :
    uploadImageHandler (some file0) coordsRaw recipient0 envAllOk
      = ({ status := 200,
           body := .successBody successMessage
             "https://violet-gentle-cow-510.mypinata.cloud/ipfs/QmDeMoHash"
             (buildSchemaValues
               (jsOr (some "Event Name: Demo\nEvent Description: Test\nOccasion: Meetup")
                 noDescriptionFallback)
               ["12", "72"])
             "0x5fe1a3" }, 1) :=
  (uploadImage_response_policy file0 coordsRaw recipient0 envAllOk).2.2.2.2.2.2
    ["12", "72"]
    "https://violet-gentle-cow-510.mypinata.cloud/ipfs/QmDeMoHash"
    (some "Event Name: Demo\nEvent Description: Test\nOccasion: Meetup")
    "0x5fe1a3" rfl rfl rfl rfl rfl

/-- C5: for every extraction text and caller coordinates, the final record's
`location_coordinates` is exactly the caller's parsed coordinates and its
`memory_description` is the fixed provenance string — neither is derived
from the text. -/
theorem schemaValues_coords_and_memory_fixed (responseText : String) (coords : List String) :
    (buildSchemaValues responseText coords).location_coordinates = coords ∧
    (buildSchemaValues responseText coords).memory_description
      = "Generated from OpenAI analysis of the image." :=
  ⟨rfl, rfl⟩

/-- C6: schema encoding is a pure, deterministic function of the record and
schema identifier — any two records with identical field values encode to
identical payloads under every schema id, so repeated calls with the same
arguments agree; no other input reaches the encoder. -/
theorem encodeData_deterministic (s : String) (r₁ r₂ : EventRecord)
    (h1 : r₁.event_name = r₂.event_name)
    (h2 : r₁.event_description = r₂.event_description)
    (h3 : r₁.occasion = r₂.occasion)
    (h4 : r₁.location_coordinates = r₂.location_coordinates)
    (h5 : r₁.memory_description = r₂.memory_description) :
    encodeData s r₁ = encodeData s r₂ := by
  cases r₁
  cases r₂
  dsimp at h1 h2 h3 h4 h5
  subst h1 h2 h3 h4 h5
  rfl

/-- C6 witness: determinism at the concrete default record and the published
schema. -/
theorem encodeData_deterministic_witness :
    encodeData registeredSchema defaultValues
      = encodeData registeredSchema defaultValues :=
  encodeData_deterministic registeredSchema defaultValues defaultValues
    rfl rfl rfl rfl rfl

/-- C7: the three-line scenario text parses to the record with the three
labeled values and the fixed location and memory values. -/
theorem scenarioA_parse :
    parseAIResponse "Event Name: Demo\nEvent Description: Test\nOccasion: Meetup" =
      { event_name := "Demo"
        event_description := "Test"
        occasion := "Meetup"
        location_coordinates := ["12", "72"]
        memory_description := "Generated from OpenAI analysis of the image." } := by
  decide

/-- C8: round trip — decoding any payload produced by `encodeData` for any
schema id recovers every field of the original record. -/
theorem decode_encode_roundtrip (r : EventRecord) (s : String) (p : List Nat)
    (h : encodeData s r = some p) : decodeRecord p = some r := by
  unfold encodeData at h
  split at h
  · rw [Option.some.injEq] at h
    rw [← h]
    exact decodeRecord_encodeRecord r
  · exact absurd h (by simp)

/-- C8 witness: the round trip at the concrete default record. -/
theorem decode_encode_roundtrip_witness :
    decodeRecord (encodeRecord defaultValues) = some defaultValues :=
  decode_encode_roundtrip defaultValues registeredSchema
    (encodeRecord defaultValues) (by simp [encodeData])

/-- C9 counterexample: on input whose last `Event Name:` line has an empty
value, the parser's output is the default `EthIndia2024`, not the trimmed
value of the last matching line (which is the empty string) — the claim as
stated fails on this input. -/
theorem last_label_empty_cex :
    parsedLines "Event Name: Demo\nEvent Name:"
      = ["Event Name: Demo", "Event Name:"] ∧
    jsStartsWith "Event Name:" "Event Name:" = true ∧
    stripLabel "Event Name:" "Event Name:" = "" ∧
    (parseAIResponse "Event Name: Demo\nEvent Name:").event_name = "EthIndia2024" ∧
    ("EthIndia2024" : String) ≠ "" :=
  ⟨by decide, by decide, by decide, by decide, by decide⟩

/-- C9 amended: when several lines carry the same recognized label, the
output field is the trimmed value of the last such line when that value is
non-empty; when it trims to empty, the JS `||` defaulting replaces it with
the field's default value. -/
theorem parse_last_label_wins (t : String) (lab : Label)
    (ls₁ ls₂ : List String) (l : String)
    (hsplit : parsedLines t = ls₁ ++ l :: ls₂)
    (hl : jsStartsWith l (labelText lab) = true)
    (hlast : ∀ l' ∈ ls₂, jsStartsWith l' (labelText lab) = false) :
    recordField lab (parseAIResponse t)
      = (if stripLabel (labelText lab) l = "" then recordField lab defaultValues
         else stripLabel (labelText lab) l) := by
  rw [recordField_parseAIResponse, hsplit, List.foldl_append, List.foldl_cons,
    dataField_foldl_of_no_match lab ls₂ _ hlast,
    dataField_processLine_of_match lab _ l hl]
  rfl

/-- C9 witness: two `Event Name:` lines, the later non-empty value wins. -/
theorem parse_last_label_wins_witness :
    recordField Label.name (parseAIResponse "Event Name: A\nEvent Name: B")
      = (if stripLabel (labelText Label.name) "Event Name: B" = ""
         then recordField Label.name defaultValues
         else stripLabel (labelText Label.name) "Event Name: B") :=
  parse_last_label_wins "Event Name: A\nEvent Name: B" Label.name
    ["Event Name: A"] [] "Event Name: B" (by decide) (by decide) (by decide)

/-- C10: every attestation request built by the upload endpoint has
`revocable := true`, `expirationTime := 0` and the fixed schema UID; and the
handler's observable behaviour is unchanged when its attest oracle is
replaced by any function agreeing with it on exactly the requests satisfying
that invariant — the endpoint never submits any other request. -/
theorem attest_request_invariants :
    (∀ (recipient : String) (d : List Nat),
        (mkAttestRequest recipient d).revocable = true ∧
        (mkAttestRequest recipient d).expirationTime = 0 ∧
        (mkAttestRequest recipient d).schema = schemaUID) ∧
    (∀ (file : Option FileInfo) (lc rec : String) (env : Env)
        (g : AttestRequest → Except String Unit),
        (∀ req, req.revocable = true → req.expirationTime = 0 →
          g req = env.attest req) →
        uploadImageHandler file lc rec { env with attest := g }
          = uploadImageHandler file lc rec env) := by
  refine ⟨fun _ _ => ⟨rfl, rfl, rfl⟩, ?_⟩
  intro file lc rec env g hg
  cases file with
  | none => rfl
  | some f =>
    cases hpc : env.parseCoords lc with
    | error e => simp only [uploadImageHandler, hpc]
    | ok c =>
      cases hpin : env.pinFile f.path f.originalname with
      | error e => simp only [uploadImageHandler, hpc, hpin]
      | ok url =>
        cases hdesc : env.describe url with
        | error e => simp only [uploadImageHandler, hpc, hpin, hdesc]
        | ok content =>
          simp only [uploadImageHandler, hpc, hpin, hdesc]
          rw [hg (mkAttestRequest rec
            (encodeRecord (buildSchemaValues (jsOr content noDescriptionFallback) c)))
            rfl rfl]

/-- C10 witness: replacing the attest oracle by one that only follows it on
revocable requests leaves the concrete all-success run unchanged. -/
theorem attest_request_invariants_witness :
    uploadImageHandler (some file0) coordsRaw recipient0
        { envAllOk with
            attest := fun req =>
              if req.revocable then envAllOk.attest req else .error "x" }
      = uploadImageHandler (some file0) coordsRaw recipient0 envAllOk :=
  attest_request_invariants.2 (some file0) coordsRaw recipient0 envAllOk
    (fun req => if req.revocable then envAllOk.attest req else .error "x")
    (fun req h1 _ => by simp [h1])

end S2P
